import Mathlib

/-!
Verification development for the whatsapp-poc media ingestion pipeline.

Shallow embedding of the pure decision logic of:
- `src/config.py` (the `CONFIG` dictionary, `MIME_TYPE_MAP`, `ensure_media_directory`),
- `src/utils/file_handler.py` (`get_file_extension`, `get_media_subdirectory`,
  `generate_safe_filename`, `validate_file_size`),
- `src/utils/message_deduplicator.py` (`MessageDeduplicator`),
- `src/services/media_processor.py` (`queue_media_for_processing`,
  `_download_media`, `_store_media_data`, `_process_single_media`),
- `src/services/z_transact.py` (`process_z_transact_document`),
- `src/api/whatsapp.py` (`store_message`).

Network I/O, clock readings and the uuid generator are passed in explicitly as
oracle records / parameters; Python dict `.get` results are `Option` values;
Python truthiness of an optional string is the `truthy` predicate below.
File writes are modelled by the returned list of `(path, bytes)` pairs.
-/

/-- Python truthiness of an optional string: `None` and `""` are falsy. -/
def truthy : Option String → Bool
  | none => false
  | some s => s ≠ ""

/-! ## config.py -/

/-- The process environment read by `config.py` via `os.getenv`: each variable
is present (`some`) or absent (`none`). -/
structure Env where
  version : Option String
  token_env : Option String
  phone_number_id : Option String
  verify_token_env : Option String
  app_secret : Option String
  webhook_url_env : Option String
  media_storage_path_env : Option String
  z_transact_access_token_env : Option String
  z_transact_api_url_env : Option String

/-- The keys of the `CONFIG` dictionary built in `config.py` (lines 40-49). -/
def CONFIG_keys : List String :=
  ["VERIFY_TOKEN", "ACCESS_TOKEN", "PHONE_NUMBER_ID", "APP_SECRET",
   "WEBHOOK_URL", "MEDIA_STORAGE_PATH", "Z_TRANSACT_ACCESS_TOKEN", "Z_TRANSACT_API_URL"]

/-- `CONFIG.get(k)` from `config.py`: returns the stored value for a present
key (which may itself be `None`, collapsed to `none` here) and `none` for an
absent key.  `WEBHOOK_URL` and `MEDIA_STORAGE_PATH` carry `os.getenv` defaults. -/
def CONFIG_get (e : Env) (k : String) : Option String :=
  if k = "VERIFY_TOKEN" then e.verify_token_env
  else if k = "ACCESS_TOKEN" then e.token_env
  else if k = "PHONE_NUMBER_ID" then e.phone_number_id
  else if k = "APP_SECRET" then e.app_secret
  else if k = "WEBHOOK_URL" then some (e.webhook_url_env.getD "/webhook")
  else if k = "MEDIA_STORAGE_PATH" then some (e.media_storage_path_env.getD "/app/media")
  else if k = "Z_TRANSACT_ACCESS_TOKEN" then e.z_transact_access_token_env
  else if k = "Z_TRANSACT_API_URL" then e.z_transact_api_url_env
  else none

/-- `MIME_TYPE_MAP` from `config.py` (lines 52-100), as an association list in
source order. -/
def MIME_TYPE_MAP : List (String × String) :=
  [("application/pdf", "pdf"),
   ("application/msword", "doc"),
   ("application/vnd.openxmlformats-officedocument.wordprocessingml.document", "docx"),
   ("application/vnd.ms-excel", "xls"),
   ("application/vnd.openxmlformats-officedocument.spreadsheetml.sheet", "xlsx"),
   ("application/vnd.ms-powerpoint", "ppt"),
   ("application/vnd.openxmlformats-officedocument.presentationml.presentation", "pptx"),
   ("text/csv", "csv"),
   ("text/plain", "txt"),
   ("text/html", "html"),
   ("text/xml", "xml"),
   ("image/jpeg", "jpg"),
   ("image/jpg", "jpg"),
   ("image/png", "png"),
   ("image/gif", "gif"),
   ("image/webp", "webp"),
   ("audio/mpeg", "mp3"),
   ("audio/mp3", "mp3"),
   ("audio/wav", "wav"),
   ("audio/ogg", "ogg"),
   ("audio/m4a", "m4a"),
   ("audio/amr", "amr"),
   ("video/mp4", "mp4"),
   ("video/3gpp", "3gp"),
   ("video/quicktime", "mov"),
   ("video/webm", "webm"),
   ("application/zip", "zip"),
   ("application/x-rar-compressed", "rar"),
   ("application/x-7z-compressed", "7z"),
   ("application/x-tar", "tar"),
   ("application/gzip", "gz"),
   ("application/octet-stream", "bin")]

/-- The subdirectories created by `ensure_media_directory` in `config.py`
(line 106), in source order. -/
def ensure_media_directory_subdirs : List String :=
  ["documents", "images", "audio", "video", "other"]

/-! ## utils/file_handler.py -/

/-- `get_file_extension(mime_type, filename)`: MIME map lookup first, then the
lowercased last dot-component of a truthy filename, else `"bin"`. -/
def get_file_extension (mime_type : String) (filename : Option String) : String :=
  match MIME_TYPE_MAP.lookup mime_type with
  | some ext => ext
  | none =>
    match filename with
    | some f =>
      if f ≠ "" ∧ f.contains '.' then ((f.splitOn ".").getLastD "").toLower
      else "bin"
    | none => "bin"

/-- Structural helper for Python's `str.startswith`: does the second list
extend the first? (Defined over character lists so proofs can evaluate it.) -/
def starts_with_chars : List Char → List Char → Bool
  | [], _ => true
  | _ :: _, [] => false
  | p :: ps, c :: cs => p == c && starts_with_chars ps cs

/-- Python's `mime_type.startswith(pre)`. -/
def py_startswith (s pre : String) : Bool := starts_with_chars pre.data s.data

/-- `get_media_subdirectory(msg_type, mime_type)` from `file_handler.py`
(lines 19-35), branch for branch. -/
def get_media_subdirectory (msg_type mime_type : String) : String :=
  if msg_type = "image" ∨ msg_type = "video" then msg_type ++ "s"
  else if msg_type = "audio" then "audio"
  else if msg_type = "document" then
    if py_startswith mime_type "image/" then "images"
    else if py_startswith mime_type "video/" then "video"
    else if py_startswith mime_type "audio/" then "audio"
    else "documents"
  else "other"

/-- The filter `"".join(c for c in original_filename if c.isalnum() or c in "._-")[:50]`
from `generate_safe_filename`. -/
def sanitize_original_filename (f : String) : String :=
  String.mk ((f.toList.filter (fun c => c.isAlphanum || c = '.' || c = '_' || c = '-')).take 50)

/-- `generate_safe_filename(phone, msg_type, mime_type, original_filename)`:
the wall-clock timestamp string and the uuid-derived short id are passed in
as `ts` and `uid`. -/
def generate_safe_filename (phone msg_type mime_type : String)
    (original_filename : Option String) (ts uid : String) : String :=
  let phone_clean := (phone.replace "+" "").replace " " ""
  let extension := get_file_extension mime_type original_filename
  match original_filename with
  | some f =>
    if f ≠ "" ∧ f.trim ≠ "" then
      phone_clean ++ "_" ++ msg_type ++ "_" ++ ts ++ "_" ++ sanitize_original_filename f ++ "." ++ extension
    else
      phone_clean ++ "_" ++ msg_type ++ "_" ++ ts ++ "_" ++ uid ++ "." ++ extension
  | none =>
    phone_clean ++ "_" ++ msg_type ++ "_" ++ ts ++ "_" ++ uid ++ "." ++ extension

/-- `validate_file_size(file_size, msg_type)` from `file_handler.py`
(lines 54-65): per-kind byte ceilings with a 100 MiB default. -/
def validate_file_size (file_size : Nat) (msg_type : String) : Bool :=
  let limit : Nat :=
    if msg_type = "image" then 5 * 1024 * 1024
    else if msg_type = "video" then 100 * 1024 * 1024
    else if msg_type = "audio" then 16 * 1024 * 1024
    else if msg_type = "document" then 100 * 1024 * 1024
    else if msg_type = "sticker" then 1 * 1024 * 1024
    else 100 * 1024 * 1024
  decide (file_size ≤ limit)

/-! ## utils/message_deduplicator.py -/

/-- The four fields `_generate_message_hash` extracts from the message dict
(`.get` of "id", "from", "timestamp", "type"; each may be absent).  The md5
digest of their canonical JSON is a deterministic function of this tuple, so
the digest is modelled by the tuple itself. -/
structure MsgKey where
  message_id : Option String
  from_number : Option String
  timestamp : Option String
  msg_type : Option String
deriving DecidableEq, Repr

/-- `MessageDeduplicator` state: `entries` models the `processed_messages` set
together with the `message_timestamps` dict (hash paired with its insertion
time, in minutes on an `Int` clock); `expiry_minutes` as in the constructor. -/
structure MessageDeduplicator where
  expiry_minutes : Int
  entries : List (MsgKey × Int)
deriving DecidableEq, Repr

/-- The module-level `message_deduplicator = MessageDeduplicator()` instance
(default `expiry_minutes=60`, empty state). -/
def message_deduplicator_init : MessageDeduplicator := ⟨60, []⟩

/-- Membership of a hash in `processed_messages`. -/
def member_hash (k : MsgKey) (entries : List (MsgKey × Int)) : Bool :=
  entries.any (fun p => p.1 == k)

/-- `_cleanup_expired_messages` at clock value `now`: discards every entry
whose timestamp is strictly older than `now - expiry_minutes`. -/
def cleanup_expired_messages (now : Int) (d : MessageDeduplicator) : MessageDeduplicator :=
  { d with entries := d.entries.filter (fun p => !(decide (p.2 < now - d.expiry_minutes))) }

/-- `is_duplicate(message_data)` at clock value `now`: membership is checked
first; only on a miss does the code clean up expired entries and insert the
new hash with the current time.  Returns the boolean and the updated state. -/
def is_duplicate (now : Int) (d : MessageDeduplicator) (msg : MsgKey) :
    Bool × MessageDeduplicator :=
  if member_hash msg d.entries then (true, d)
  else
    let d1 := cleanup_expired_messages now d
    (false, { d1 with entries := (msg, now) :: d1.entries })

/-! ## services/media_processor.py — queueing -/

/-- The `processing_data` dict created by `queue_media_for_processing`
(fields relevant to the queue; `customer` and the wall-clock `timestamp`
field are omitted as they are never branched on). -/
structure QTask where
  message_data : MsgKey
  media_id : String
  msg_type : String
  content : String
  status : String
deriving DecidableEq, Repr

/-- `MediaProcessor.queue_media_for_processing`: drop silently when
`is_duplicate` fires, else append a `"queued"` task to the processing queue.
State is the deduplicator paired with the queue contents. -/
def queue_media_for_processing (now : Int) (msg : MsgKey)
    (media_id msg_type content : String)
    (st : MessageDeduplicator × List QTask) : MessageDeduplicator × List QTask :=
  match is_duplicate now st.1 msg with
  | (true, d1) => (d1, st.2)
  | (false, d1) => (d1, st.2 ++ [⟨msg, media_id, msg_type, content, "queued"⟩])

/-- One enqueue call: its clock reading, message key and payload fields. -/
structure Call where
  time : Int
  msg : MsgKey
  media_id : String
  msg_type : String
  content : String

/-- A sequence of `queue_media_for_processing` calls folded over the shared
deduplicator/queue state. -/
def run_enqueues : List Call → MessageDeduplicator × List QTask → MessageDeduplicator × List QTask
  | [], st => st
  | c :: cs, st =>
      run_enqueues cs (queue_media_for_processing c.time c.msg c.media_id c.msg_type c.content st)

/-! ## services/media_processor.py — download -/

/-- The dict returned by `_download_media` on success. -/
structure Fetched where
  content : List Nat
  mime_type : String
  file_size : Nat
  filename : Option String
  download_url : String
deriving DecidableEq, Repr

/-- Oracle for the two Meta-API HTTP calls inside `_download_media`:
metadata status and body fields (`url`, `mime_type`, `file_size`, `filename`,
each possibly absent), then the content-download status and body bytes.
`raises` covers the `except` arms (timeout or transport error). -/
structure MetaNet where
  raises : Bool
  meta_status : Nat
  url_field : Option String
  mime_field : Option String
  size_field : Option Nat
  filename_field : Option String
  file_status : Nat
  file_bytes : List Nat
deriving DecidableEq, Repr

/-- `MediaProcessor._download_media` (media_processor.py lines 106-176):
guard on `CONFIG.get("TOKEN")`, metadata call, `url` truthiness, content
call.  The declared `file_size` metadata field is read into a local but the
returned record carries `len(file_content)` instead. -/
def download_media_mp (config : String → Option String) (net : MetaNet) : Option Fetched :=
  if truthy (config "TOKEN") = false then none
  else if net.raises then none
  else if net.meta_status ≠ 200 then none
  else
    let mime_type := net.mime_field.getD "unknown"
    let _declared_file_size := net.size_field.getD 0
    let filename := net.filename_field
    match net.url_field with
    | none => none
    | some u =>
      if u = "" then none
      else if net.file_status = 200 then
        some { content := net.file_bytes, mime_type := mime_type,
               file_size := net.file_bytes.length,
               filename := filename, download_url := u }
      else none

/-! ## services/z_transact.py -/

/-- The JSON body of a `/documents/process` response: optional per-id
`success` and `failed` lists (ids as strings). -/
structure ProcBody where
  success_ids : Option (List String)
  failed_ids : Option (List String)
deriving DecidableEq, Repr

/-- Oracle for the single HTTP call inside `process_z_transact_document`. -/
structure ProcHttp where
  raises : Bool
  status : Nat
  body : ProcBody
deriving DecidableEq, Repr

/-- `process_z_transact_document(document_id)` (z_transact.py lines 51-106):
config guard, then on HTTP 200/201 the parsed body is returned as-is — the
per-id `success`/`failed` lists are only inspected for logging, never used to
alter the returned value.  Non-2xx or an exception yields `None`. -/
def process_z_transact_document (config : String → Option String) (net : ProcHttp)
    (document_id : String) : Option ProcBody :=
  if truthy (config "Z_TRANSACT_ACCESS_TOKEN") = false ∨
     truthy (config "Z_TRANSACT_API_URL") = false then none
  else if net.raises then none
  else if net.status = 200 ∨ net.status = 201 then some net.body
  else none

/-! ## services/media_processor.py — store and worker -/

/-- Outcome of `asyncio.wait_for(upload_to_z_transact(..), timeout=30)` as seen
by `_store_media_data`: the timeout exception, a `None` return (config missing,
non-2xx or transport error inside the upload helper), or a parsed response.
For a parsed response, `idField` encodes `result.get("id", ..)`: `none` when
the `"id"` key is absent, `some v` when present with value `v` (`v = none`
models a JSON null). -/
inductive UploadRes where
  | timedOut : UploadRes
  | failed : UploadRes
  | ok : Option (Option String) → UploadRes
deriving DecidableEq, Repr

/-- Oracle bundle for one `_store_media_data` run: local write failure flag,
upload outcome, the `wait_for` timeout and exception flags around the process
call, and the HTTP behaviour inside `process_z_transact_document`. -/
structure StoreEnv where
  write_raises : Bool
  upload : UploadRes
  proc_timed_out : Bool
  proc_raises : Bool
  proc_net : ProcHttp
deriving DecidableEq, Repr

/-- The mutable fields of the `processing_data` dict touched by the worker. -/
structure TaskData where
  status : String
  file_path : Option String
  z_transact_upload : Option String
  z_transact_process : Option String
  document_id : Option String
  error : Option String
deriving DecidableEq, Repr

/-- A freshly queued task record. -/
def task_init : TaskData :=
  { status := "queued", file_path := none, z_transact_upload := none,
    z_transact_process := none, document_id := none, error := none }

/-- `MediaProcessor._store_media_data` (media_processor.py lines 178-271).
Returns the updated task record and the list of `(path, bytes)` file writes.
Mirrors the source: size-validation early return; write failure caught by the
outer `except Exception` as `storage_failed`; upload timeout caught by the
outer `except TimeoutError` as `timeout`; upload `None` recorded as
`z_transact_upload = "failed"` with the status left at `"uploading"`; on an
upload response, `document_id = result.get("id", "unknown")` and the process
step runs whenever that value is truthy. -/
def store_media_data (config : String → Option String) (env : StoreEnv)
    (phone msg_type : String) (media : Fetched) (ts uid : String)
    (td : TaskData) : TaskData × List (String × List Nat) :=
  if validate_file_size media.file_size msg_type = false then (td, [])
  else
    let subdirectory := get_media_subdirectory msg_type media.mime_type
    let filename := generate_safe_filename phone msg_type media.mime_type media.filename ts uid
    let file_path := ((config "MEDIA_STORAGE_PATH").getD "") ++ "/" ++ subdirectory ++ "/" ++ filename
    if env.write_raises then
      ({ td with status := "storage_failed", error := some "write error" }, [])
    else
      let td1 := { td with file_path := some file_path }
      let td2 := { td1 with status := "uploading" }
      match env.upload with
      | UploadRes.timedOut => ({ td2 with status := "timeout" }, [(file_path, media.content)])
      | UploadRes.failed =>
          ({ td2 with z_transact_upload := some "failed" }, [(file_path, media.content)])
      | UploadRes.ok idField =>
        let document_id : Option String :=
          match idField with
          | none => some "unknown"
          | some v => v
        let td3 := { td2 with z_transact_upload := some "success", document_id := document_id }
        if truthy document_id then
          let td4 := { td3 with status := "processing_z_transact" }
          if env.proc_timed_out then
            ({ td4 with z_transact_process := some "timeout" }, [(file_path, media.content)])
          else if env.proc_raises then
            ({ td4 with z_transact_process := some "error" }, [(file_path, media.content)])
          else
            match process_z_transact_document config env.proc_net (document_id.getD "") with
            | some _ => ({ td4 with z_transact_process := some "success" }, [(file_path, media.content)])
            | none => ({ td4 with z_transact_process := some "failed" }, [(file_path, media.content)])
        else (td3, [(file_path, media.content)])

/-- `MediaProcessor._process_single_media` (media_processor.py lines 70-104):
status `"downloading"`; a failed download ends the task at `"download_failed"`;
otherwise status `"processing"`, then `_store_media_data` (which swallows all
its exceptions), then the status is unconditionally overwritten with
`"completed"`.  The outer `except` arm (status `"failed"`) is unreachable
because both callees handle their own exceptions. -/
def process_single_media (config : String → Option String) (net : MetaNet)
    (env : StoreEnv) (phone msg_type ts uid : String)
    (td : TaskData) : TaskData × List (String × List Nat) :=
  let td1 := { td with status := "downloading" }
  match download_media_mp config net with
  | none => ({ td1 with status := "download_failed" }, [])
  | some media =>
    let td2 := { td1 with status := "processing" }
    let (td3, written) := store_media_data config env phone msg_type media ts uid td2
    ({ td3 with status := "completed" }, written)

/-! ## api/whatsapp.py — store_message -/

/-- The fields of the `message_data` dict built by `store_message` that the
claims speak about (`phone`, `customer`, free-text `content` and the metadata
sub-dict are omitted as they are never branched on). -/
structure MessageRec where
  msg_type : String
  has_media : Bool
  media_file_path : Option String
  media_error : Option String
  z_transact_upload : Option String
  z_transact_process : Option String
deriving DecidableEq, Repr

/-- `store_message` (whatsapp.py lines 71-185), synchronous storage flow.
`upload_result` is the `upload_to_z_transact` return (`none` = `None`), with
the `"id"` field encoded as in `UploadRes.ok`; here the source uses
`z_transact_result.get("id")` with no default.  An oversize file sets
`has_media = False` with `media_error = "File size exceeds limit"` and writes
nothing; a save error likewise clears `has_media`. -/
def store_message (config : String → Option String) (write_raises : Bool)
    (upload_result : Option (Option (Option String))) (proc_net : ProcHttp)
    (phone msg_type : String) (media : Option Fetched) (ts uid : String) :
    MessageRec × List (String × List Nat) :=
  let base : MessageRec :=
    { msg_type := msg_type, has_media := media.isSome, media_file_path := none,
      media_error := none, z_transact_upload := none, z_transact_process := none }
  match media with
  | none => (base, [])
  | some m =>
    if validate_file_size m.file_size msg_type = false then
      ({ base with has_media := false, media_error := some "File size exceeds limit" }, [])
    else
      let subdirectory := get_media_subdirectory msg_type m.mime_type
      let filename := generate_safe_filename phone msg_type m.mime_type m.filename ts uid
      let file_path := ((config "MEDIA_STORAGE_PATH").getD "") ++ "/" ++ subdirectory ++ "/" ++ filename
      if write_raises then
        ({ base with media_error := some "Save failed", has_media := false }, [])
      else
        let rec1 := { base with media_file_path := some file_path }
        match upload_result with
        | none =>
            ({ rec1 with z_transact_upload := some "failed" }, [(file_path, m.content)])
        | some idField =>
          let rec2 := { rec1 with z_transact_upload := some "success" }
          let document_id : Option String :=
            match idField with
            | none => none
            | some v => v
          if truthy document_id then
            match process_z_transact_document config proc_net (document_id.getD "") with
            | some _ => ({ rec2 with z_transact_process := some "success" }, [(file_path, m.content)])
            | none => ({ rec2 with z_transact_process := some "failed" }, [(file_path, m.content)])
          else (rec2, [(file_path, m.content)])

/-! ## Concrete sample data used by witnesses and counterexamples -/

/-- A concrete inbound-message key. -/
def kA : MsgKey := ⟨some "wamid.A1", some "15550001111", some "1700000000", some "image"⟩

/-- A second, distinct inbound-message key. -/
def kB : MsgKey := ⟨some "wamid.B2", some "15550002222", some "1700000100", some "document"⟩

/-- A fully populated configuration function (all credentials present), used
to exercise the branches of the pipeline that the shipped `CONFIG` dictionary
can never reach. -/
def cfgDemo : String → Option String := fun k =>
  if k = "TOKEN" then some "tok"
  else if k = "ACCESS_TOKEN" then some "tok"
  else if k = "MEDIA_STORAGE_PATH" then some "/app/media"
  else if k = "Z_TRANSACT_ACCESS_TOKEN" then some "ztok"
  else if k = "Z_TRANSACT_API_URL" then some "https://z.example"
  else none

/-- A successful two-phase download whose metadata declares `file_size = 100`
while the downloaded body is 3 bytes long. -/
def netMismatch : MetaNet :=
  { raises := false, meta_status := 200, url_field := some "https://cdn.example/m1",
    mime_field := some "application/pdf", size_field := some 100,
    filename_field := some "a.pdf", file_status := 200, file_bytes := [1, 2, 3] }

/-- The `Fetched` record `_download_media` produces from `netMismatch`. -/
def fetchedDemo : Fetched :=
  { content := [1, 2, 3], mime_type := "application/pdf", file_size := 3,
    filename := some "a.pdf", download_url := "https://cdn.example/m1" }

/-- A small in-limit image media record. -/
def mediaSmall : Fetched :=
  { content := [7], mime_type := "image/jpeg", file_size := 1,
    filename := some "p.jpg", download_url := "https://cdn.example/m2" }

/-- An image media record whose declared size (6 MiB) exceeds the 5 MiB
image ceiling. -/
def mediaBig : Fetched :=
  { content := [7], mime_type := "image/jpeg", file_size := 6 * 1024 * 1024,
    filename := some "big.jpg", download_url := "https://cdn.example/m3" }

/-- A `/documents/process` HTTP exchange: status 200, body listing id "42"
in the `failed` list and nothing in `success`. -/
def procNetFailed42 : ProcHttp :=
  { raises := false, status := 200, body := { success_ids := some [], failed_ids := some ["42"] } }

/-- A benign `/documents/process` exchange: status 200, id "42" succeeded. -/
def procNetOk42 : ProcHttp :=
  { raises := false, status := 200, body := { success_ids := some ["42"], failed_ids := some [] } }

/-- Store-stage oracle: write succeeds, upload returns a body with no `"id"`
key, the process call succeeds at the HTTP level. -/
def envIdAbsent : StoreEnv :=
  { write_raises := false, upload := UploadRes.ok none, proc_timed_out := false,
    proc_raises := false, proc_net := procNetOk42 }

/-- Store-stage oracle: write succeeds, upload returns `None`. -/
def envUploadFailed : StoreEnv :=
  { write_raises := false, upload := UploadRes.failed, proc_timed_out := false,
    proc_raises := false, proc_net := procNetOk42 }

/-- Store-stage oracle: write succeeds, the upload `wait_for` times out. -/
def envUploadTimeout : StoreEnv :=
  { write_raises := false, upload := UploadRes.timedOut, proc_timed_out := false,
    proc_raises := false, proc_net := procNetOk42 }

/-- Store-stage oracle: write succeeds, upload returns id "42", process call
answers 200 with "42" in the failed list. -/
def envProcFailed42 : StoreEnv :=
  { write_raises := false, upload := UploadRes.ok (some (some "42")), proc_timed_out := false,
    proc_raises := false, proc_net := procNetFailed42 }

/-! ## Helper lemmas about the deduplicator -/

theorem member_hash_of_mem {k : MsgKey} {t : Int} {l : List (MsgKey × Int)}
    (h : (k, t) ∈ l) : member_hash k l = true := by
  simp only [member_hash, List.any_eq_true]
  exact ⟨(k, t), h, by simp⟩

theorem member_hash_false_of_forall {k : MsgKey} {l : List (MsgKey × Int)}
    (h : ∀ t, (k, t) ∉ l) : member_hash k l = false := by
  simp only [member_hash, List.any_eq_false]
  rintro ⟨k', t⟩ hmem
  simp only [beq_iff_eq]
  intro hk
  exact h t (hk ▸ hmem)

theorem mem_cleanup {k : MsgKey} {t now : Int} {d : MessageDeduplicator}
    (h : (k, t) ∈ d.entries) (hle : now - d.expiry_minutes ≤ t) :
    (k, t) ∈ (cleanup_expired_messages now d).entries := by
  simp only [cleanup_expired_messages, List.mem_filter]
  refine ⟨h, ?_⟩
  simp only [Bool.not_eq_true', decide_eq_false_iff_not]
  omega

theorem is_duplicate_expiry (now : Int) (d : MessageDeduplicator) (msg : MsgKey) :
    ((is_duplicate now d msg).2).expiry_minutes = d.expiry_minutes := by
  unfold is_duplicate
  split <;> rfl

theorem mem_is_duplicate {k msg : MsgKey} {t now : Int} {d : MessageDeduplicator}
    (h : (k, t) ∈ d.entries) (hle : now - d.expiry_minutes ≤ t) :
    (k, t) ∈ ((is_duplicate now d msg).2).entries := by
  unfold is_duplicate
  split
  · exact h
  · exact List.mem_cons_of_mem _ (mem_cleanup h hle)

theorem queue_media_preserves (now : Int) (msg : MsgKey) (mid mt ct : String)
    (st : MessageDeduplicator × List QTask) {k : MsgKey} {t : Int}
    (h : (k, t) ∈ st.1.entries) (hle : now - st.1.expiry_minutes ≤ t) :
    (k, t) ∈ (queue_media_for_processing now msg mid mt ct st).1.entries ∧
    (queue_media_for_processing now msg mid mt ct st).1.expiry_minutes = st.1.expiry_minutes ∧
    (queue_media_for_processing now msg mid mt ct st).2.countP (fun task => task.message_data == k) =
      st.2.countP (fun task => task.message_data == k) := by
  have hmem := @mem_is_duplicate k msg t now st.1 h hle
  have hexp := is_duplicate_expiry now st.1 msg
  unfold queue_media_for_processing
  cases hd : is_duplicate now st.1 msg with
  | mk b d1 =>
    rw [hd] at hmem hexp
    cases b with
    | true => exact ⟨hmem, hexp, rfl⟩
    | false =>
      have hne : msg ≠ k := by
        intro heq
        have hmb : member_hash msg st.1.entries = true :=
          member_hash_of_mem (heq ▸ h)
        unfold is_duplicate at hd
        rw [if_pos hmb] at hd
        simp at hd
      refine ⟨hmem, hexp, ?_⟩
      simp [List.countP_append, List.countP_cons, hne]

theorem run_enqueues_preserves (calls : List Call) (st : MessageDeduplicator × List QTask)
    {k : MsgKey} {t : Int}
    (h : (k, t) ∈ st.1.entries)
    (hcalls : ∀ c ∈ calls, c.time - st.1.expiry_minutes ≤ t) :
    (k, t) ∈ (run_enqueues calls st).1.entries ∧
    (run_enqueues calls st).1.expiry_minutes = st.1.expiry_minutes ∧
    (run_enqueues calls st).2.countP (fun task => task.message_data == k) =
      st.2.countP (fun task => task.message_data == k) := by
  induction calls generalizing st with
  | nil => exact ⟨h, rfl, rfl⟩
  | cons c cs ih =>
    have hc : c.time - st.1.expiry_minutes ≤ t := hcalls c (by simp)
    obtain ⟨h1, h2, h3⟩ :=
      queue_media_preserves c.time c.msg c.media_id c.msg_type c.content st h hc
    have hcalls' : ∀ c' ∈ cs,
        c'.time - (queue_media_for_processing c.time c.msg c.media_id c.msg_type c.content st).1.expiry_minutes ≤ t := by
      intro c' hc'
      rw [h2]
      exact hcalls c' (by simp [hc'])
    obtain ⟨g1, g2, g3⟩ := ih _ h1 hcalls'
    simp only [run_enqueues]
    exact ⟨g1, g2.trans h2, g3.trans h3⟩

theorem queue_media_noop (now : Int) (msg : MsgKey) (mid mt ct : String)
    (st : MessageDeduplicator × List QTask)
    (h : is_duplicate now st.1 msg = (true, st.1)) :
    queue_media_for_processing now msg mid mt ct st = st := by
  unfold queue_media_for_processing
  rw [h]

theorem store_media_data_oversize (config : String → Option String) (env : StoreEnv)
    (phone mt : String) (media : Fetched) (ts uid : String) (td : TaskData)
    (hv : validate_file_size media.file_size mt = false) :
    store_media_data config env phone mt media ts uid td = (td, []) := by
  simp [store_media_data, hv]

/-! ## Claim theorems -/

/-- Claim C1: for two `enqueue` calls whose messages share the same
(message id, sender id, timestamp, kind), made within the expiry window (all
intervening calls and the repeat no later than `t1 + expiry`), the second
call is a no-op: `is_duplicate` answers `true` for the repeat, the state and
queue are left untouched (no `ProcessingTask` is created or pushed), and the
number of in-flight tasks for that key never grows beyond the first. -/
theorem C1_enqueue_dedup_noop
    (st0 : MessageDeduplicator × List QTask) (msg : MsgKey)
    (t1 t2 : Int) (mid1 mt1 ct1 mid2 mt2 ct2 : String) (calls : List Call)
    (hfresh : ∀ t, (msg, t) ∉ st0.1.entries)
    (hcalls : ∀ c ∈ calls, c.time ≤ t1 + st0.1.expiry_minutes)
    (ht2 : t2 ≤ t1 + st0.1.expiry_minutes) :
    (is_duplicate t2 (run_enqueues calls (queue_media_for_processing t1 msg mid1 mt1 ct1 st0)).1 msg).1 = true ∧
    queue_media_for_processing t2 msg mid2 mt2 ct2 (run_enqueues calls (queue_media_for_processing t1 msg mid1 mt1 ct1 st0)) =
      run_enqueues calls (queue_media_for_processing t1 msg mid1 mt1 ct1 st0) ∧
    (run_enqueues calls (queue_media_for_processing t1 msg mid1 mt1 ct1 st0)).2.countP
        (fun task => task.message_data == msg) =
      (queue_media_for_processing t1 msg mid1 mt1 ct1 st0).2.countP
        (fun task => task.message_data == msg) := by
  have hmb : member_hash msg st0.1.entries = false := member_hash_false_of_forall hfresh
  have hdup : is_duplicate t1 st0.1 msg =
      (false, { cleanup_expired_messages t1 st0.1 with
                entries := (msg, t1) :: (cleanup_expired_messages t1 st0.1).entries }) := by
    unfold is_duplicate
    rw [hmb]
    simp
  have hst1mem : (msg, t1) ∈ (queue_media_for_processing t1 msg mid1 mt1 ct1 st0).1.entries := by
    unfold queue_media_for_processing
    rw [hdup]
    exact List.mem_cons_self _ _
  have hst1exp : (queue_media_for_processing t1 msg mid1 mt1 ct1 st0).1.expiry_minutes =
      st0.1.expiry_minutes := by
    unfold queue_media_for_processing
    rw [hdup]
    rfl
  have hcalls' : ∀ c ∈ calls,
      c.time - (queue_media_for_processing t1 msg mid1 mt1 ct1 st0).1.expiry_minutes ≤ t1 := by
    intro c hc
    rw [hst1exp]
    have := hcalls c hc
    omega
  obtain ⟨g1, g2, g3⟩ :=
    run_enqueues_preserves calls (queue_media_for_processing t1 msg mid1 mt1 ct1 st0) hst1mem hcalls'
  have hmem2 : member_hash msg
      (run_enqueues calls (queue_media_for_processing t1 msg mid1 mt1 ct1 st0)).1.entries = true :=
    member_hash_of_mem g1
  have hdup2 : is_duplicate t2
      (run_enqueues calls (queue_media_for_processing t1 msg mid1 mt1 ct1 st0)).1 msg =
      (true, (run_enqueues calls (queue_media_for_processing t1 msg mid1 mt1 ct1 st0)).1) := by
    unfold is_duplicate
    rw [hmem2]
    simp
  exact ⟨by rw [hdup2], queue_media_noop t2 msg mid2 mt2 ct2 _ hdup2, g3⟩

/-- Witness for C1 at a concrete state: fresh deduplicator, first enqueue of
`kA` at minute 0, one intervening enqueue of `kB` at minute 10, repeat of
`kA` at minute 30, all inside the 60-minute window. -/
theorem C1_enqueue_dedup_noop_witness :
    (∀ t, (kA, t) ∉ (message_deduplicator_init, ([] : List QTask)).1.entries) ∧
    (∀ c ∈ [Call.mk 10 kB "m2" "document" ""],
      c.time ≤ 0 + (message_deduplicator_init, ([] : List QTask)).1.expiry_minutes) ∧
    ((30 : Int) ≤ 0 + (message_deduplicator_init, ([] : List QTask)).1.expiry_minutes) ∧
    ((is_duplicate 30 (run_enqueues [Call.mk 10 kB "m2" "document" ""]
        (queue_media_for_processing 0 kA "m1" "image" "c" (message_deduplicator_init, []))).1 kA).1 = true ∧
     queue_media_for_processing 30 kA "m1" "image" "c"
        (run_enqueues [Call.mk 10 kB "m2" "document" ""]
          (queue_media_for_processing 0 kA "m1" "image" "c" (message_deduplicator_init, []))) =
      run_enqueues [Call.mk 10 kB "m2" "document" ""]
        (queue_media_for_processing 0 kA "m1" "image" "c" (message_deduplicator_init, [])) ∧
     (run_enqueues [Call.mk 10 kB "m2" "document" ""]
        (queue_media_for_processing 0 kA "m1" "image" "c" (message_deduplicator_init, []))).2.countP
          (fun task => task.message_data == kA) =
      (queue_media_for_processing 0 kA "m1" "image" "c" (message_deduplicator_init, [])).2.countP
          (fun task => task.message_data == kA)) := by
  refine ⟨by simp [message_deduplicator_init], by decide, by decide, ?_⟩
  exact C1_enqueue_dedup_noop (message_deduplicator_init, []) kA 0 30 "m1" "image" "c" "m1" "image" "c"
    [Call.mk 10 kB "m2" "document" ""] (by simp [message_deduplicator_init]) (by decide) (by decide)

/-- Claim C4 counterexample: with the default 60-minute window, a key inserted
at minute 0 and repeated at minute 100 (well past expiry, with no intervening
traffic) still reports `is_duplicate = true`, because membership is checked
before the cleanup runs — the claim predicts `false` here. -/
theorem C4_counterexample :
    (100 : Int) > 0 + message_deduplicator_init.expiry_minutes ∧
    (is_duplicate 100 ((is_duplicate 0 message_deduplicator_init kA).2) kA).1 = true := by
  decide

/-- Claim C4 (amended): a repeat after the expiry window is accepted again
only once a cleanup has run after the key expired.  If some other key `k'`
is processed at a time `t3` past the key's expiry (`t1 < t3 - expiry`), the
cleanup on that miss evicts the old key, and a subsequent repeat of `k` at
any time `t4` yields `is_duplicate = false`, so a new task may be created.
A direct repeat with no intervening distinct message still reports duplicate
(see the counterexample). -/
theorem is_duplicate_fst (now : Int) (d : MessageDeduplicator) (msg : MsgKey) :
    (is_duplicate now d msg).1 = member_hash msg d.entries := by
  unfold is_duplicate
  split <;> simp_all

theorem C4_amended_eviction_after_cleanup (e t1 t3 t4 : Int) (k k' : MsgKey)
    (hne : k ≠ k') (hexp : t1 < t3 - e) :
    (is_duplicate t4 ((is_duplicate t3 ⟨e, [(k, t1)]⟩ k').2) k).1 = false := by
  have h1 : member_hash k' [(k, t1)] = false := by
    simp only [member_hash, List.any_cons, List.any_nil, Bool.or_false, beq_eq_false_iff_ne]
    exact hne
  have h2 : ((is_duplicate t3 (⟨e, [(k, t1)]⟩ : MessageDeduplicator) k').2).entries = [(k', t3)] := by
    unfold is_duplicate
    rw [h1]
    simp [cleanup_expired_messages, List.filter, hexp]
  have h3 : member_hash k ((is_duplicate t3 (⟨e, [(k, t1)]⟩ : MessageDeduplicator) k').2).entries = false := by
    rw [h2]
    simp only [member_hash, List.any_cons, List.any_nil, Bool.or_false, beq_eq_false_iff_ne]
    exact Ne.symm hne
  rw [is_duplicate_fst, h3]

/-- Witness for the amended C4: key `kA` inserted at minute 0, distinct key
`kB` processed at minute 61 (past the 60-minute window), repeat of `kA` at
minute 200 is accepted again. -/
theorem C4_amended_eviction_after_cleanup_witness :
    kA ≠ kB ∧ (0 : Int) < 61 - 60 ∧
    (is_duplicate 200 ((is_duplicate 61 ⟨60, [(kA, 0)]⟩ kB).2) kA).1 = false := by
  exact ⟨by decide, by decide,
    C4_amended_eviction_after_cleanup 60 0 61 200 kA kB (by decide) (by decide)⟩

/-- Claim C2: the `CONFIG` dict has no key `"TOKEN"` (it stores the token
under `"ACCESS_TOKEN"`), so `CONFIG.get("TOKEN")` is `None` for every
environment, `_download_media` returns `None` through its missing-credential
guard regardless of network behaviour, and every task processed by the
worker terminates with status `"download_failed"`. -/
theorem C2_missing_token_key_always_download_failed :
    ("TOKEN" ∉ CONFIG_keys) ∧
    (∀ e : Env, CONFIG_get e "TOKEN" = none) ∧
    (∀ (e : Env) (net : MetaNet), download_media_mp (CONFIG_get e) net = none) ∧
    (∀ (e : Env) (net : MetaNet) (env : StoreEnv) (phone mt ts uid : String) (td : TaskData),
      (process_single_media (CONFIG_get e) net env phone mt ts uid td).1.status = "download_failed") := by
  refine ⟨by decide, fun e => rfl, fun e net => rfl,
    fun e net env phone mt ts uid td => rfl⟩

/-- Claim C3 counterexample: with a successful download, an upload that
returns non-success leaves the task at final status `"completed"` (with
`z_transact_upload = "failed"`), and an upload timeout also ends at
`"completed"` — in neither case does any `"upload_failed"` status appear,
contrary to the claim. -/
theorem C3_counterexample :
    (process_single_media cfgDemo netMismatch envUploadFailed "p" "document" "20250101_000000" "u1" task_init).1.status = "completed" ∧
    (process_single_media cfgDemo netMismatch envUploadFailed "p" "document" "20250101_000000" "u1" task_init).1.status ≠ "upload_failed" ∧
    (process_single_media cfgDemo netMismatch envUploadFailed "p" "document" "20250101_000000" "u1" task_init).1.z_transact_upload = some "failed" ∧
    (process_single_media cfgDemo netMismatch envUploadTimeout "p" "document" "20250101_000000" "u1" task_init).1.status = "completed" ∧
    (process_single_media cfgDemo netMismatch envUploadTimeout "p" "document" "20250101_000000" "u1" task_init).1.status ≠ "upload_failed" := by
  refine ⟨rfl, by decide, rfl, rfl, by decide⟩

/-- Claim C3 (amended): no `upload_failed` status exists in the code.  When
the upload `wait_for` times out, `_store_media_data` sets the task status to
`"timeout"`; when the upload returns non-success it records
`z_transact_upload = "failed"` and leaves the status at `"uploading"`; in
every case `_process_single_media` then overwrites the final status with
`"completed"` once the store step returns. -/
theorem C3_amended_upload_failure_outcomes (config : String → Option String) (env : StoreEnv)
    (phone mt ts uid : String) (media : Fetched) (td : TaskData)
    (hv : validate_file_size media.file_size mt = true)
    (hw : env.write_raises = false) :
    (env.upload = UploadRes.failed →
      (store_media_data config env phone mt media ts uid td).1.z_transact_upload = some "failed" ∧
      (store_media_data config env phone mt media ts uid td).1.status = "uploading") ∧
    (env.upload = UploadRes.timedOut →
      (store_media_data config env phone mt media ts uid td).1.status = "timeout") ∧
    (∀ net : MetaNet, download_media_mp config net = some media →
      (process_single_media config net env phone mt ts uid td).1.status = "completed") := by
  refine ⟨?_, ?_, ?_⟩
  · intro hu
    simp [store_media_data, hv, hw, hu]
  · intro hu
    simp [store_media_data, hv, hw, hu]
  · intro net hnet
    unfold process_single_media
    rw [hnet]

/-- Witness for the amended C3 at a concrete in-limit document task. -/
theorem C3_amended_upload_failure_outcomes_witness :
    validate_file_size fetchedDemo.file_size "document" = true ∧
    envUploadFailed.write_raises = false ∧
    ((envUploadFailed.upload = UploadRes.failed →
      (store_media_data cfgDemo envUploadFailed "p" "document" fetchedDemo "ts" "u1" task_init).1.z_transact_upload = some "failed" ∧
      (store_media_data cfgDemo envUploadFailed "p" "document" fetchedDemo "ts" "u1" task_init).1.status = "uploading") ∧
    (envUploadFailed.upload = UploadRes.timedOut →
      (store_media_data cfgDemo envUploadFailed "p" "document" fetchedDemo "ts" "u1" task_init).1.status = "timeout") ∧
    (∀ net : MetaNet, download_media_mp cfgDemo net = some fetchedDemo →
      (process_single_media cfgDemo net envUploadFailed "p" "document" "ts" "u1" task_init).1.status = "completed")) := by
  exact ⟨by decide, rfl,
    C3_amended_upload_failure_outcomes cfgDemo envUploadFailed "p" "document" "ts" "u1"
      fetchedDemo task_init (by decide) rfl⟩

/-- Claim C5 counterexample: a successful fetch whose metadata declares
`file_size = 100` but whose body is 3 bytes returns `file_size = 3` — the
actual downloaded byte length, not the declared value, contrary to the
claim's "the returned size is the declared value". -/
theorem C5_counterexample :
    download_media_mp cfgDemo netMismatch = some fetchedDemo ∧
    netMismatch.size_field = some 100 ∧
    fetchedDemo.file_size = 3 ∧
    fetchedDemo.file_size ≠ 100 := by
  refine ⟨rfl, rfl, rfl, by decide⟩

/-- Claim C5 (amended): on success the fetch returns the byte content, the
MIME type as declared by the platform metadata (default "unknown") and the
declared filename, but its `file_size` is `len(file_content)` — re-derived
from the downloaded bytes; the declared size field is read and then
discarded. -/
theorem C5_amended_size_is_actual_length (config : String → Option String) (net : MetaNet)
    (r : Fetched) (h : download_media_mp config net = some r) :
    r.content = net.file_bytes ∧
    r.file_size = net.file_bytes.length ∧
    r.mime_type = net.mime_field.getD "unknown" ∧
    r.filename = net.filename_field := by
  unfold download_media_mp at h
  by_cases h1 : truthy (config "TOKEN") = false
  · rw [if_pos h1] at h
    exact absurd h (by simp)
  · rw [if_neg h1] at h
    by_cases h2 : net.raises = true
    · rw [if_pos h2] at h
      exact absurd h (by simp)
    · rw [if_neg h2] at h
      by_cases h3 : net.meta_status ≠ 200
      · rw [if_pos h3] at h
        exact absurd h (by simp)
      · rw [if_neg h3] at h
        simp only [] at h
        rcases hu : net.url_field with _ | u
        · rw [hu] at h
          exact absurd h (by simp)
        · rw [hu] at h
          dsimp only at h
          by_cases h4 : u = ""
          · rw [if_pos h4] at h
            exact absurd h (by simp)
          · rw [if_neg h4] at h
            by_cases h5 : net.file_status = 200
            · rw [if_pos h5] at h
              rw [Option.some_inj] at h
              subst h
              exact ⟨rfl, rfl, rfl, rfl⟩
            · rw [if_neg h5] at h
              exact absurd h (by simp)

/-- Witness for the amended C5 at the concrete mismatching fetch. -/
theorem C5_amended_size_is_actual_length_witness :
    download_media_mp cfgDemo netMismatch = some fetchedDemo ∧
    (fetchedDemo.content = netMismatch.file_bytes ∧
     fetchedDemo.file_size = netMismatch.file_bytes.length ∧
     fetchedDemo.mime_type = netMismatch.mime_field.getD "unknown" ∧
     fetchedDemo.filename = netMismatch.filename_field) := by
  exact ⟨rfl, C5_amended_size_is_actual_length cfgDemo netMismatch fetchedDemo rfl⟩

/-- Claim C6: for a media item whose declared size exceeds its kind's
ceiling, the store step writes nothing to disk and does not enter a failure
state: `_store_media_data` returns the task unchanged (the worker then marks
it `"completed"`), and the synchronous `store_message` flow records
`has_media = false` with the size-limit error note and also writes nothing. -/
theorem C6_oversize_no_write_completes (config : String → Option String)
    (env : StoreEnv) (wr : Bool) (upl : Option (Option (Option String))) (pnet : ProcHttp)
    (phone mt ts uid : String) (media : Fetched) (td : TaskData)
    (hv : validate_file_size media.file_size mt = false) :
    (store_media_data config env phone mt media ts uid td = (td, [])) ∧
    ((store_message config wr upl pnet phone mt (some media) ts uid).1.has_media = false ∧
     (store_message config wr upl pnet phone mt (some media) ts uid).1.media_error = some "File size exceeds limit" ∧
     (store_message config wr upl pnet phone mt (some media) ts uid).2 = []) ∧
    (∀ net : MetaNet, download_media_mp config net = some media →
      (process_single_media config net env phone mt ts uid td).1.status = "completed" ∧
      (process_single_media config net env phone mt ts uid td).2 = []) := by
  refine ⟨store_media_data_oversize config env phone mt media ts uid td hv, ?_, ?_⟩
  · simp [store_message, hv]
  · intro net hnet
    unfold process_single_media
    rw [hnet]
    dsimp only
    rw [store_media_data_oversize config env phone mt media ts uid _ hv]
    exact ⟨rfl, rfl⟩

/-- Witness for C6: a 6 MiB image against the 5 MiB image ceiling. -/
theorem C6_oversize_no_write_completes_witness :
    validate_file_size mediaBig.file_size "image" = false ∧
    ((store_media_data cfgDemo envUploadFailed "p" "image" mediaBig "ts" "u1" task_init = (task_init, [])) ∧
     ((store_message cfgDemo false none procNetOk42 "p" "image" (some mediaBig) "ts" "u1").1.has_media = false ∧
      (store_message cfgDemo false none procNetOk42 "p" "image" (some mediaBig) "ts" "u1").1.media_error = some "File size exceeds limit" ∧
      (store_message cfgDemo false none procNetOk42 "p" "image" (some mediaBig) "ts" "u1").2 = []) ∧
     (∀ net : MetaNet, download_media_mp cfgDemo net = some mediaBig →
       (process_single_media cfgDemo net envUploadFailed "p" "image" "ts" "u1" task_init).1.status = "completed" ∧
       (process_single_media cfgDemo net envUploadFailed "p" "image" "ts" "u1" task_init).2 = [])) := by
  exact ⟨by decide,
    C6_oversize_no_write_completes cfgDemo envUploadFailed false none procNetOk42
      "p" "image" "ts" "u1" mediaBig task_init (by decide)⟩

/-- Claim C7 (code bug): for kind `"document"` with a `video/*` MIME type the
resolved subdirectory is `"video"` (singular), which is outside the claimed
set images/videos/audio/documents/other; moreover the plain `"video"` kind
resolves to `"videos"`, a directory `ensure_media_directory` never creates,
while `"video"` is created — the two functions contradict each other. -/
theorem C7_subdirectory_outside_claimed_set :
    get_media_subdirectory "document" "video/mp4" = "video" ∧
    "video" ∉ (["images", "videos", "audio", "documents", "other"] : List String) ∧
    get_media_subdirectory "video" "video/mp4" = "videos" ∧
    "videos" ∉ ensure_media_directory_subdirs ∧
    "video" ∈ ensure_media_directory_subdirs := by
  decide

/-- Claim C8 (code bug): when the upload response carries no `"id"` key,
`_store_media_data` substitutes the truthy placeholder `"unknown"`
(`result.get("id", "unknown")`), so the remote-processing stage IS entered
(status `"processing_z_transact"`, a process call recorded) instead of being
skipped; the sibling `store_message` flow in whatsapp.py, which uses
`.get("id")` without a default, skips processing as intended. -/
theorem C8_missing_id_still_enters_processing :
    (store_media_data cfgDemo envIdAbsent "p" "image" mediaSmall "ts" "u1" task_init).1.document_id = some "unknown" ∧
    (store_media_data cfgDemo envIdAbsent "p" "image" mediaSmall "ts" "u1" task_init).1.status = "processing_z_transact" ∧
    (store_media_data cfgDemo envIdAbsent "p" "image" mediaSmall "ts" "u1" task_init).1.z_transact_process = some "success" ∧
    (store_message cfgDemo false (some none) procNetOk42 "p" "image" (some mediaSmall) "ts" "u1").1.z_transact_process = none := by
  refine ⟨rfl, rfl, rfl, rfl⟩

/-- Claim C9 (code bug): `process_z_transact_document` returns the parsed
body whenever the HTTP status is 200/201, even when that body lists the
submitted id in its `failed` list; the caller only truthiness-checks the
return, so the task outcome is recorded as `z_transact_process = "success"`
although the remote service reported the id as failed. -/
theorem C9_failed_id_recorded_as_success :
    process_z_transact_document cfgDemo procNetFailed42 "42" = some procNetFailed42.body ∧
    "42" ∈ procNetFailed42.body.failed_ids.getD [] ∧
    "42" ∉ procNetFailed42.body.success_ids.getD [] ∧
    (store_media_data cfgDemo envProcFailed42 "p" "image" mediaSmall "ts" "u1" task_init).1.z_transact_process = some "success" := by
  refine ⟨rfl, by decide, by decide, rfl⟩

/-- Claim C10 counterexample: the claim quantifies over every message kind,
but for kind `"image"` a file with MIME type `application/pdf` is placed in
subdirectory `"images"`, not `"documents"` (subdirectory resolution depends
on the kind first). -/
theorem C10_counterexample :
    get_media_subdirectory "image" "application/pdf" = "images" ∧
    "images" ≠ "documents" ∧
    get_media_subdirectory "text" "application/pdf" = "other" := by
  refine ⟨rfl, by decide, rfl⟩

/-- Claim C10 (amended): for every original filename, a file written for MIME
type `application/pdf` carries extension `"pdf"` (the MIME map wins over any
filename), and it lands in subdirectory `"documents"` when the message kind
is `"document"`; for other kinds the subdirectory follows the kind mapping. -/
theorem C10_amended_pdf_extension_document_kind :
    (∀ filename : Option String, get_file_extension "application/pdf" filename = "pdf") ∧
    get_media_subdirectory "document" "application/pdf" = "documents" := by
  exact ⟨fun filename => rfl, rfl⟩
